import Mathlib

/-!
Verification of the Cosmos DB MCP server (`dist/index.js`): a shallow
embedding of the tool handlers, the dispatcher and the item store they talk
to, with theorems about the documented behaviour.
-/

/-- A JSON-like runtime value, as manipulated by the JavaScript handlers.
`vUndefined` models JavaScript `undefined` (distinct from `null`). Numbers
are modelled as integers; no handler performs numeric arithmetic. -/
inductive Value where
  | vStr : String → Value
  | vNum : Int → Value
  | vBool : Bool → Value
  | vNull : Value
  | vUndefined : Value
  | vObj : List (String × Value) → Value
  | vArr : List Value → Value

/-- An item (document) is a JavaScript object: an ordered list of
field-name/value pairs, first binding wins on lookup. -/
abbrev Item := List (String × Value)

/-- JavaScript `typeof`: note `typeof null` is `"object"`, and objects and
arrays are both `"object"`. -/
def jsTypeof : Value → String
  | Value.vStr _ => "string"
  | Value.vNum _ => "number"
  | Value.vBool _ => "boolean"
  | Value.vNull => "object"
  | Value.vUndefined => "undefined"
  | Value.vObj _ => "object"
  | Value.vArr _ => "object"

/-- JavaScript `s.split(' ')` over the character list: splits at every
single space; adjacent spaces yield empty segments, the empty string yields
one empty segment. -/
def splitSpaces : List Char → List (List Char)
  | [] => [[]]
  | c :: rest =>
      if c = ' ' then [] :: splitSpaces rest
      else
        match splitSpaces rest with
        | [] => [[c]]
        | w :: ws => (c :: w) :: ws

/-- JavaScript `words.join(' ')` over character lists. -/
def joinSpaces : List (List Char) → List Char
  | [] => []
  | [w] => w
  | w :: ws => w ++ ' ' :: joinSpaces ws

example : splitSpaces "a b".data = ["a".data, "b".data] := by decide
example : splitSpaces "".data = ["".data] := by decide
example : splitSpaces "a  b".data = ["a".data, [], "b".data] := by decide
example : joinSpaces ["a".data, "b".data] = "a b".data := by decide

/-- Embedding of `truncateLongValues` from `dist/index.js`:
```
if (typeof value === 'string' && value.length > 100) {
    return value.split(' ').slice(0, 10).join(' ') + '...';
}
return value;
```
String length is the character count (the JavaScript `.length`). -/
def truncateLongValues (value : Value) : Value :=
  match value with
  | Value.vStr s =>
      if 100 < s.length then
        Value.vStr (String.mk (joinSpaces ((splitSpaces s.data).take 10)) ++ "...")
      else value
  | _ => value

/-- The per-item truncation loop of `sampleItem`: copy every field of the
item, passing its value through `truncateLongValues`. -/
def truncateItem (item : Item) : Item :=
  item.map (fun kv => (kv.1, truncateLongValues kv.2))

/-- First-binding field lookup on an item, i.e. JavaScript property read. -/
def lookupField : Item → String → Option Value
  | [], _ => none
  | kv :: rest, key => if kv.1 = key then some kv.2 else lookupField rest key

/-- The `id` of an item: its `"id"` field when that is a string. -/
def itemId (item : Item) : Option String :=
  match lookupField item "id" with
  | some (Value.vStr s) => some s
  | _ => none

/-- JavaScript object spread `\x7b...resource, ...updates\x7d`: fields of
`base` in order, each overridden by `updates` when the key also occurs
there, followed by the fields of `updates` whose keys are new. -/
def mergeItem (base updates : Item) : Item :=
  (base.map (fun kv =>
    match lookupField updates kv.1 with
    | some v => (kv.1, v)
    | none => kv))
  ++ updates.filter (fun kv => (lookupField base kv.1).isNone)

/-- Model of the external Cosmos DB database state: the containers of the
configured database, each a named ordered list of items. The real store is
a remote service; its durable state is all that the handlers observe. -/
structure Store where
  containers : List (String × List Item)

/-- The items of a named container, `none` when no such container exists. -/
def getContainer (s : Store) (c : String) : Option (List Item) :=
  match s.containers.find? (fun e => e.1 = c) with
  | some e => some e.2
  | none => none

/-- Model of `container.item(id).read()`: the resource with the given id,
or `none` (JavaScript `undefined`) when the item or the container is
absent — the v3 client resolves a 404 point read with an undefined
resource instead of throwing. -/
def itemRead (s : Store) (c : String) (id : String) : Option Item :=
  match getContainer s c with
  | none => none
  | some items => items.find? (fun it => itemId it = some id)

/-- Replace the items of container `c` (no-op when `c` is absent). -/
def setContainer (s : Store) (c : String) (items : List Item) : Store :=
  ⟨s.containers.map (fun e => if e.1 = c then (e.1, items) else e)⟩

/-- Model of `container.items.create(item)`: fails when the container is
missing or an item with the same id already exists (HTTP 409 Conflict),
otherwise appends the item and returns it as the created resource. The
string is the error's string form as interpolated by `$\x7berror\x7d`.
Items without a string `id` are out of the model (the client would
auto-generate an id). -/
def itemsCreate (s : Store) (c : String) (item : Item) :
    Except String (Item × Store) :=
  match getContainer s c with
  | none => Except.error "Error: Entity with the specified id does not exist in the system."
  | some items =>
      match itemId item with
      | none => Except.error "Error: id not modelled"
      | some id =>
          if items.any (fun it => itemId it = some id) then
            Except.error "Error: Entity with the specified id already exists in the system."
          else
            Except.ok (item, setContainer s c (items ++ [item]))

/-- Model of `container.item(id).replace(body)`: replaces the item whose id
is `id` with `body` and returns the stored resource; fails when the item is
absent. -/
def itemReplace (s : Store) (c : String) (id : String) (body : Item) :
    Except String (Item × Store) :=
  match getContainer s c with
  | none => Except.error "Error: Entity with the specified id does not exist in the system."
  | some items =>
      if items.any (fun it => itemId it = some id) then
        Except.ok (body,
          setContainer s c (items.map (fun it => if itemId it = some id then body else it)))
      else
        Except.error "Error: Entity with the specified id does not exist in the system."

/-- One entry of `sample_item`'s schema payload. -/
structure SchemaEntry where
  field : String
  type : String
  sample : Value

/-- The uniform result object every handler returns. An `Option` payload
field that is `none` covers both a key the handler did not set and a key
set to JavaScript `undefined` — `JSON.stringify` drops both from the
serialized output. -/
structure OperationResult where
  success : Bool
  message : String
  item : Option Item := none
  items : Option (List Item) := none
  containers : Option (List String) := none
  schema : Option (List SchemaEntry) := none

/-- Embedding of `updateItem` from `dist/index.js`: read the current item, throw
"Item not found" when the read resolves undefined (caught by the handler's
own catch), otherwise spread-merge `updates` over it and replace. -/
def updateItem (s : Store) (containerName id : String) (updates : Item) :
    OperationResult × Store :=
  match itemRead s containerName id with
  | none =>
      ({ success := false,
         message := "Failed to update item: Error: Item not found" }, s)
  | some resource =>
      let updatedItem := mergeItem resource updates
      match itemReplace s containerName id updatedItem with
      | Except.error e =>
          ({ success := false, message := "Failed to update item: " ++ e }, s)
      | Except.ok (updatedResource, s2) =>
          ({ success := true,
             message := "Item updated successfully in container " ++ containerName,
             item := some updatedResource }, s2)

/-- Embedding of `putItem` from `dist/index.js`: a single `items.create(item)` call;
its failure (in particular the 409 on an existing id) is caught and
reported as `success:false`. -/
def putItem (s : Store) (containerName : String) (item : Item) :
    OperationResult × Store :=
  match itemsCreate s containerName item with
  | Except.error e =>
      ({ success := false, message := "Failed to put item: " ++ e }, s)
  | Except.ok (resource, s2) =>
      ({ success := true,
         message := "Item added successfully to container " ++ containerName,
         item := some resource }, s2)

/-- Embedding of `getItem` from `dist/index.js`: a point read; the resource (possibly
undefined) is returned under `item` with `success:true` — there is no
not-found branch. The read mutates nothing. -/
def getItem (s : Store) (containerName id : String) : OperationResult × Store :=
  ({ success := true,
     message := "Item retrieved successfully from container " ++ containerName,
     item := itemRead s containerName id }, s)

/-- Embedding of `queryContainer` from `dist/index.js`, applied to the outcome of the
delegated `items.query(...).fetchAll()` call (query evaluation itself is
the external store's). -/
def queryContainer (containerName : String) (fetched : Except String (List Item)) :
    OperationResult :=
  match fetched with
  | Except.error e =>
      { success := false, message := "Failed to query container: " ++ e }
  | Except.ok resources =>
      { success := true,
        message := "Query executed successfully on container " ++ containerName,
        items := some resources }

/-- Embedding of `listContainers` from `dist/index.js`: the ids of the database's
containers. -/
def listContainers (s : Store) : OperationResult :=
  { success := true,
    message := "Containers retrieved successfully",
    containers := some (s.containers.map Prod.fst) }

/-- Embedding of `sampleItem` from `dist/index.js`, applied to the resources fetched by
the delegated `ORDER BY c._ts DESC` query: truncate every field of every
returned item, and derive the schema from the raw first item. -/
def sampleItem (containerName : String) (fetched : Except String (List Item)) :
    OperationResult :=
  match fetched with
  | Except.error e =>
      { success := false, message := "Failed to sample container: " ++ e }
  | Except.ok resources =>
      { success := true,
        message := "Retrieved " ++ toString resources.length
          ++ " sample item(s) from container " ++ containerName,
        items := some (resources.map truncateItem),
        schema := some (match resources with
          | [] => []
          | first :: _ =>
              first.map (fun kv =>
                { field := kv.1, type := jsTypeof kv.2,
                  sample := truncateLongValues kv.2 })) }



/-- A run of `n` spaces, for the two-space indentation of `JSON.stringify`. -/
def indentSpaces (n : Nat) : String := String.mk (List.replicate n ' ')

/-- JSON string escaping for the common escapes (`JSON.stringify` also
\u-escapes other control characters; the handlers' fixed messages contain
none). -/
def jsonEscapeChar (c : Char) : String :=
  if c = '"' then "\\\""
  else if c = '\\' then "\\\\"
  else if c = '\n' then "\\n"
  else if c = '\t' then "\\t"
  else if c = '\r' then "\\r"
  else String.mk [c]

/-- Escape a whole string. -/
def jsonEscape (s : String) : String := String.join (s.data.map jsonEscapeChar)

/-- A JSON string literal. -/
def quoteStr (s : String) : String := "\"" ++ jsonEscape s ++ "\""

mutual

/-- Pretty-print a `Value` as `JSON.stringify(v, null, 2)` does, at the
given current indent. `vUndefined` is printed as `null` (it never reaches
this printer from the handlers: undefined results are modelled as absent
`Option` fields of `OperationResult`). -/
def printValue (ind : Nat) : Value → String
  | Value.vStr s => quoteStr s
  | Value.vNum n => toString n
  | Value.vBool b => if b then "true" else "false"
  | Value.vNull => "null"
  | Value.vUndefined => "null"
  | Value.vObj fields =>
      match fields with
      | [] => "\x7b\x7d"
      | _ => "\x7b\n" ++ printFields (ind + 2) fields ++ "\n"
          ++ indentSpaces ind ++ "\x7d"
  | Value.vArr vs =>
      match vs with
      | [] => "[]"
      | _ => "[\n" ++ printElems (ind + 2) vs ++ "\n" ++ indentSpaces ind ++ "]"

/-- The `"key": value` lines of an object body, comma-separated. -/
def printFields (ind : Nat) : List (String × Value) → String
  | [] => ""
  | [kv] => indentSpaces ind ++ quoteStr kv.1 ++ ": " ++ printValue ind kv.2
  | kv :: rest =>
      indentSpaces ind ++ quoteStr kv.1 ++ ": " ++ printValue ind kv.2
        ++ ",\n" ++ printFields ind rest

/-- The element lines of an array body, comma-separated. -/
def printElems (ind : Nat) : List Value → String
  | [] => ""
  | [v] => indentSpaces ind ++ printValue ind v
  | v :: rest =>
      indentSpaces ind ++ printValue ind v ++ ",\n" ++ printElems ind rest

end

/-- The JSON object an `OperationResult` serializes to: keys in the order
the handlers construct them; absent `Option` payloads contribute no key. -/
def resultToValue (r : OperationResult) : Value :=
  Value.vObj
    ([("success", Value.vBool r.success), ("message", Value.vStr r.message)]
      ++ (match r.item with
          | some it => [("item", Value.vObj it)]
          | none => [])
      ++ (match r.items with
          | some its => [("items", Value.vArr (its.map Value.vObj))]
          | none => [])
      ++ (match r.containers with
          | some cs => [("containers", Value.vArr (cs.map Value.vStr))]
          | none => [])
      ++ (match r.schema with
          | some es => [("schema", Value.vArr (es.map (fun e =>
              Value.vObj [("field", Value.vStr e.field), ("type", Value.vStr e.type),
                          ("sample", e.sample)])))]
          | none => []))

/-- Serialization `JSON.stringify(result, null, 2)` as used by the dispatcher. -/
def stringifyResult (r : OperationResult) : String :=
  printValue 0 (resultToValue r)

/-- The arguments object of a call-tool request, with the fields the six
handlers destructure. `limit = none` models an absent `limit`, defaulted to
1 by `sampleItem`'s destructuring. -/
structure Args where
  containerName : String := ""
  id : String := ""
  item : Item := []
  updates : Item := []
  query : String := ""
  parameters : List (String × Value) := []
  limit : Option Int := none

/-- The external store's query engine, fully delegated by the code: given
container name, query string and parameters it produces the fetched
resources or a failure. -/
structure QueryOracle where
  run : String → String → List (String × Value) → Except String (List Item)

/-- The fixed query text `sampleItem` issues. -/
def sampleQueryText : String :=
  "SELECT * FROM c ORDER BY c._ts DESC OFFSET 0 LIMIT @limit"

/-- The six registered tool names, in the order of the dispatcher's switch. -/
def toolNames : List String :=
  ["put_item", "get_item", "query_container", "update_item",
   "list_containers", "sample_item"]

/-- The switch of the call-tool request handler: the `result` each known
tool name produces (with the store it leaves behind), `none` on the
default branch. -/
def handlerOutcome (oracle : QueryOracle) (s : Store) (name : String)
    (args : Args) : Option (OperationResult × Store) :=
  if name = "put_item" then some (putItem s args.containerName args.item)
  else if name = "get_item" then some (getItem s args.containerName args.id)
  else if name = "query_container" then
    some (queryContainer args.containerName
      (oracle.run args.containerName args.query args.parameters), s)
  else if name = "update_item" then
    some (updateItem s args.containerName args.id args.updates)
  else if name = "list_containers" then some (listContainers s, s)
  else if name = "sample_item" then
    some (sampleItem args.containerName
      (oracle.run args.containerName sampleQueryText
        [("@limit", Value.vNum (args.limit.getD 1))]), s)
  else none

/-- The protocol response: the single text content, and the `isError` flag
(`false` models the flag being unset — the code never writes
`isError:false`). -/
structure ToolResponse where
  text : String
  isError : Bool := false

/-- The call-tool request handler: known names return the handler's result
serialized with `JSON.stringify(result, null, 2)` and no error flag; the
default branch returns `Unknown tool: <name>` with `isError:true`. The
dispatcher-level catch is unreachable in this embedding because every
handler catches its own failures and returns a result. -/
def dispatch (oracle : QueryOracle) (s : Store) (name : String) (args : Args) :
    ToolResponse × Store :=
  match handlerOutcome oracle s name args with
  | some (result, s2) => ({ text := stringifyResult result }, s2)
  | none => ({ text := "Unknown tool: " ++ name, isError := true }, s)

/-- Whether `pat` is an initial segment of a character list. -/
def segStartsWith : List Char → List Char → Bool
  | [], _ => true
  | _ :: _, [] => false
  | p :: ps, c :: cs => p = c && segStartsWith ps cs

/-- Whether `pat` occurs contiguously somewhere in a character list. -/
def segOccurs (pat : List Char) : List Char → Bool
  | [] => segStartsWith pat []
  | c :: cs => segStartsWith pat (c :: cs) || segOccurs pat cs

/-- Whether `hay` contains `pat` as a substring (JavaScript `includes`). -/
def strContains (hay pat : String) : Bool := segOccurs pat.data hay.data

/-- Field lookup distributes over list append, first list first. -/
theorem lookupField_append (l1 l2 : Item) (k : String) :
    lookupField (l1 ++ l2) k =
      match lookupField l1 k with
      | some v => some v
      | none => lookupField l2 k := by
  induction l1 with
  | nil => simp [lookupField]
  | cons kv rest ih =>
      by_cases h : kv.1 = k <;> simp [lookupField, h, ih]

/-- Lookup in the spread's first half: every field of `base`, overridden
from `updates` where the key collides. -/
theorem lookupField_map_override (base updates : Item) (k : String) :
    lookupField (base.map (fun kv =>
      match lookupField updates kv.1 with
      | some v => (kv.1, v)
      | none => kv)) k =
      match lookupField base k with
      | none => none
      | some w =>
          match lookupField updates k with
          | some v => some v
          | none => some w := by
  induction base with
  | nil => simp [lookupField]
  | cons kv rest ih =>
      by_cases h : kv.1 = k
      · subst h
        cases hu : lookupField updates kv.1 <;> simp [lookupField, hu]
      · cases hu : lookupField updates kv.1 <;> simp [lookupField, hu, h, ih]

/-- Lookup in the spread's second half: the fields of `updates` whose keys
do not occur in `base`. -/
theorem lookupField_filter_new (base updates : Item) (k : String) :
    lookupField (updates.filter (fun kv => (lookupField base kv.1).isNone)) k =
      if (lookupField base k).isNone then lookupField updates k else none := by
  induction updates with
  | nil => simp [lookupField]
  | cons u us ih =>
      by_cases h : u.1 = k
      · subst h
        cases hb : (lookupField base u.1).isNone <;>
          simp [List.filter_cons, hb, lookupField, ih]
      · cases hg : (lookupField base u.1).isNone <;>
          simp [List.filter_cons, hg, lookupField, h, ih]

/-- The shallow-merge semantics of the object spread: a merged field reads
as the update's value when the key is updated and as the base's value
otherwise. -/
theorem lookupField_mergeItem (base updates : Item) (k : String) :
    lookupField (mergeItem base updates) k =
      match lookupField updates k with
      | some v => some v
      | none => lookupField base k := by
  rw [mergeItem, lookupField_append, lookupField_map_override]
  cases hb : lookupField base k <;> cases hu : lookupField updates k <;>
    simp [lookupField_filter_new, hb, hu]

/-- When a point read finds an item with the given id, replacing at that id
succeeds and stores the given body. -/
theorem itemReplace_of_read (s : Store) (c id : String) (cur body : Item)
    (h : itemRead s c id = some cur) :
    ∃ s2, itemReplace s c id body = Except.ok (body, s2) := by
  cases hc : getContainer s c with
  | none => simp only [itemRead, hc] at h; cases h
  | some items =>
      simp only [itemRead, hc] at h
      have hmem := List.mem_of_find?_eq_some h
      have hp := List.find?_some h
      have hany : items.any (fun it => itemId it = some id) = true :=
        List.any_eq_true.mpr ⟨cur, hmem, hp⟩
      refine ⟨setContainer s c
        (items.map (fun it => if itemId it = some id then body else it)), ?_⟩
      unfold itemReplace
      rw [hc]
      simp [hany]

/-- When a point read misses, no item of the container has the id. -/
theorem any_id_eq_false_of_read_none (s : Store) (c id : String)
    (items : List Item) (hc : getContainer s c = some items)
    (h : itemRead s c id = none) :
    items.any (fun it => itemId it = some id) = false := by
  simp only [itemRead, hc] at h
  have hall := List.find?_eq_none.mp h
  cases hA : items.any (fun it => itemId it = some id) with
  | false => rfl
  | true =>
      obtain ⟨x, hx, hpx⟩ := List.any_eq_true.mp hA
      exact absurd hpx (hall x hx)

/-- The items of the demonstration container: one item with id "x". -/
def exContainerItems : List Item :=
  [[("id", Value.vStr "x"), ("a", Value.vNum 0), ("b", Value.vNum 2)]]

/-- A demonstration store with a single container "c". -/
def exStore : Store := ⟨[("c", exContainerItems)]⟩

/-- An item whose id "x" collides with the stored item. -/
def exItemX : Item := [("id", Value.vStr "x"), ("a", Value.vNum 1)]

/-- An item whose id "y" is fresh. -/
def exItemY : Item := [("id", Value.vStr "y"), ("a", Value.vNum 1)]

/-- C1, the code evaluated at the failing input: the tool's own
description ("Inserts or replaces an item") and the claim say `put_item`
upserts — an item whose id already exists replaces the stored item with
`success:true`. The implementation instead issues a single `items.create`
call, and create fails with a 409 conflict on an existing id: against a
store holding an item with id "x", putting another item with id "x" yields
`success:false` and leaves the store unchanged — no replace happens. -/
theorem putItem_upsert_counterexample :
    itemRead exStore "c" "x" =
      some [("id", Value.vStr "x"), ("a", Value.vNum 0), ("b", Value.vNum 2)] ∧
    ¬ ((putItem exStore "c" exItemX).1.success = true) ∧
    (putItem exStore "c" exItemX).2 = exStore :=
  ⟨rfl, by decide, rfl⟩

/-- C1, amended: `put_item` performs a single `items.create` call: when no
item with the item's id exists it inserts the item and returns
`success:true` carrying the created item; when an item with that id already
exists the create call fails, the handler returns `success:false` with a
message starting "Failed to put item", and the store is unchanged. -/
theorem putItem_create_semantics (s : Store) (c : String) (item : Item)
    (id : String) (items : List Item)
    (hid : itemId item = some id) (hc : getContainer s c = some items) :
    (∀ cur, itemRead s c id = some cur →
      (putItem s c item).1.success = false ∧
      strContains (putItem s c item).1.message "Failed to put item" = true ∧
      (putItem s c item).2 = s) ∧
    (itemRead s c id = none →
      (putItem s c item).1 =
        { success := true,
          message := "Item added successfully to container " ++ c,
          item := some item } ∧
      (putItem s c item).2 = setContainer s c (items ++ [item])) := by
  constructor
  · intro cur h
    simp only [itemRead, hc] at h
    have hmem := List.mem_of_find?_eq_some h
    have hp := List.find?_some h
    have hany : items.any (fun it => itemId it = some id) = true :=
      List.any_eq_true.mpr ⟨cur, hmem, hp⟩
    have e : putItem s c item =
        ({ success := false,
           message := "Failed to put item: "
             ++ "Error: Entity with the specified id already exists in the system." },
         s) := by
      unfold putItem itemsCreate
      rw [hc, hid]
      simp [hany]
    rw [e]
    refine ⟨rfl, ?_, rfl⟩
    show strContains ("Failed to put item: "
      ++ "Error: Entity with the specified id already exists in the system.")
      "Failed to put item" = true
    decide
  · intro h
    have hany := any_id_eq_false_of_read_none s c id items hc h
    have e : putItem s c item =
        ({ success := true,
           message := "Item added successfully to container " ++ c,
           item := some item },
         setContainer s c (items ++ [item])) := by
      unfold putItem itemsCreate
      rw [hc, hid]
      simp [hany]
    rw [e]
    exact ⟨rfl, rfl⟩

/-- C1, witness: both branches of the create semantics at the
demonstration store. -/
theorem putItem_create_semantics_witness :
    ((putItem exStore "c" exItemX).1.success = false ∧
     strContains (putItem exStore "c" exItemX).1.message "Failed to put item" = true ∧
     (putItem exStore "c" exItemX).2 = exStore) ∧
    ((putItem exStore "c" exItemY).1 =
       { success := true,
         message := "Item added successfully to container " ++ "c",
         item := some exItemY } ∧
     (putItem exStore "c" exItemY).2 =
       setContainer exStore "c" (exContainerItems ++ [exItemY])) :=
  ⟨(putItem_create_semantics exStore "c" exItemX "x" exContainerItems rfl rfl).1
      [("id", Value.vStr "x"), ("a", Value.vNum 0), ("b", Value.vNum 2)] rfl,
   (putItem_create_semantics exStore "c" exItemY "y" exContainerItems rfl rfl).2 rfl⟩

/-- C2: `update_item` reads the current item first; on a missing id it
returns `success:false` with a message containing "Item not found" and
leaves the store untouched (no replace call); on a present id it
shallow-merges `updates` over the current item's fields (updated fields
overwritten, unspecified fields retained), replaces the stored item with
the merged result, and returns the merged, persisted item with
`success:true`. -/
theorem updateItem_read_merge_replace (s : Store) (c id : String)
    (updates : Item) :
    (itemRead s c id = none →
      (updateItem s c id updates).1.success = false ∧
      strContains (updateItem s c id updates).1.message "Item not found" = true ∧
      (updateItem s c id updates).2 = s) ∧
    (∀ cur, itemRead s c id = some cur →
      (updateItem s c id updates).1.success = true ∧
      (updateItem s c id updates).1.item = some (mergeItem cur updates) ∧
      itemReplace s c id (mergeItem cur updates) =
        Except.ok (mergeItem cur updates, (updateItem s c id updates).2) ∧
      (∀ k, lookupField (mergeItem cur updates) k =
        match lookupField updates k with
        | some v => some v
        | none => lookupField cur k)) := by
  constructor
  · intro h
    have e : updateItem s c id updates =
        ({ success := false,
           message := "Failed to update item: Error: Item not found" }, s) := by
      unfold updateItem
      rw [h]
    rw [e]
    refine ⟨rfl, ?_, rfl⟩
    show strContains "Failed to update item: Error: Item not found"
      "Item not found" = true
    decide
  · intro cur h
    obtain ⟨s2, hrep⟩ := itemReplace_of_read s c id cur (mergeItem cur updates) h
    have e : updateItem s c id updates =
        ({ success := true,
           message := "Item updated successfully in container " ++ c,
           item := some (mergeItem cur updates) }, s2) := by
      unfold updateItem
      rw [h]
      simp [hrep]
    rw [e]
    exact ⟨rfl, rfl, by rw [hrep], fun k => lookupField_mergeItem cur updates k⟩

/-- C2, witness: both branches at the demonstration store — a missing id
"zz", and the stored item `\x7bid:"x", a:0, b:2\x7d` updated with
`\x7ba:1\x7d`. -/
theorem updateItem_read_merge_replace_witness :
    ((updateItem exStore "c" "zz" [("a", Value.vNum 1)]).1.success = false ∧
     strContains (updateItem exStore "c" "zz" [("a", Value.vNum 1)]).1.message
       "Item not found" = true ∧
     (updateItem exStore "c" "zz" [("a", Value.vNum 1)]).2 = exStore) ∧
    ((updateItem exStore "c" "x" [("a", Value.vNum 1)]).1.success = true ∧
     (updateItem exStore "c" "x" [("a", Value.vNum 1)]).1.item =
       some (mergeItem [("id", Value.vStr "x"), ("a", Value.vNum 0), ("b", Value.vNum 2)]
         [("a", Value.vNum 1)]) ∧
     itemReplace exStore "c" "x"
         (mergeItem [("id", Value.vStr "x"), ("a", Value.vNum 0), ("b", Value.vNum 2)]
           [("a", Value.vNum 1)]) =
       Except.ok
         (mergeItem [("id", Value.vStr "x"), ("a", Value.vNum 0), ("b", Value.vNum 2)]
           [("a", Value.vNum 1)],
          (updateItem exStore "c" "x" [("a", Value.vNum 1)]).2) ∧
     (∀ k, lookupField
         (mergeItem [("id", Value.vStr "x"), ("a", Value.vNum 0), ("b", Value.vNum 2)]
           [("a", Value.vNum 1)]) k =
       match lookupField [("a", Value.vNum 1)] k with
       | some v => some v
       | none =>
           lookupField [("id", Value.vStr "x"), ("a", Value.vNum 0), ("b", Value.vNum 2)] k)) :=
  ⟨(updateItem_read_merge_replace exStore "c" "zz" [("a", Value.vNum 1)]).1 rfl,
   (updateItem_read_merge_replace exStore "c" "x" [("a", Value.vNum 1)]).2
     [("id", Value.vStr "x"), ("a", Value.vNum 0), ("b", Value.vNum 2)] rfl⟩

/-- The shallow-merge example of the spec: updating
`\x7bid:"x", a:0, b:2\x7d` with `\x7ba:1\x7d` yields
`\x7bid:"x", a:1, b:2\x7d`. -/
example :
    (updateItem exStore "c" "x" [("a", Value.vNum 1)]).1.item =
      some [("id", Value.vStr "x"), ("a", Value.vNum 1), ("b", Value.vNum 2)] := rfl

/-- C3: a `get_item` call whose id is absent from the container returns
`success:true` with an absent/undefined `item` payload — no not-found
branch exists, and the store is untouched. -/
theorem getItem_missing_id (s : Store) (c id : String)
    (h : itemRead s c id = none) :
    (getItem s c id).1.success = true ∧
    (getItem s c id).1.item = none ∧
    (getItem s c id).2 = s :=
  ⟨rfl, by simp [getItem, h], rfl⟩

/-- C3, witness: id "zz" is absent from container "c" of the
demonstration store. -/
theorem getItem_missing_id_witness :
    (getItem exStore "c" "zz").1.success = true ∧
    (getItem exStore "c" "zz").1.item = none ∧
    (getItem exStore "c" "zz").2 = exStore :=
  getItem_missing_id exStore "c" "zz" rfl

/-- Splitting a character list that contains no space yields the single
whole segment. -/
theorem splitSpaces_of_no_space (l : List Char) (h : ' ' ∉ l) :
    splitSpaces l = [l] := by
  induction l with
  | nil => rfl
  | cons c cs ih =>
      have hc : ¬ (c = ' ') := fun e => h (by rw [e]; exact List.mem_cons_self _ _)
      have hcs : ' ' ∉ cs := fun m => h (List.mem_cons_of_mem c m)
      unfold splitSpaces
      rw [if_neg hc, ih hcs]

/-- A 101-character single-word string, for witnesses. -/
def longA : String := String.mk (List.replicate 101 'a')

/-- C9: on a string longer than 100 characters with no space,
`truncateLongValues` returns the whole original string with "..." appended
— three characters longer than the input, so truncation does not bound the
output by 100 characters; in general the output of the long-string branch
is the first `min 10 (word count)` space-separated segments rejoined, plus
"...". -/
theorem truncateLongValues_no_space (str : String) (h1 : 100 < str.length)
    (h2 : ' ' ∉ str.data) :
    truncateLongValues (Value.vStr str) = Value.vStr (str ++ "...") ∧
    (str ++ "...").length = str.length + 3 ∧
    (∀ t : String, 100 < t.length →
      truncateLongValues (Value.vStr t) =
        Value.vStr (String.mk (joinSpaces ((splitSpaces t.data).take 10)) ++ "...") ∧
      ((splitSpaces t.data).take 10).length = min 10 (splitSpaces t.data).length) := by
  refine ⟨?_, ?_, ?_⟩
  · simp only [truncateLongValues]
    rw [if_pos h1, splitSpaces_of_no_space str.data h2]
    rfl
  · rw [String.length_append]
    rfl
  · intro t ht
    constructor
    · simp only [truncateLongValues]
      rw [if_pos ht]
    · rw [List.length_take]

/-- C9, witness: the 101-character spaceless string. -/
theorem truncateLongValues_no_space_witness :
    truncateLongValues (Value.vStr longA) = Value.vStr (longA ++ "...") ∧
    (longA ++ "...").length = longA.length + 3 ∧
    (truncateLongValues (Value.vStr longA) =
       Value.vStr (String.mk (joinSpaces ((splitSpaces longA.data).take 10)) ++ "...") ∧
     ((splitSpaces longA.data).take 10).length = min 10 (splitSpaces longA.data).length) :=
  ⟨(truncateLongValues_no_space longA (by decide) (by decide)).1,
   (truncateLongValues_no_space longA (by decide) (by decide)).2.1,
   (truncateLongValues_no_space longA (by decide) (by decide)).2.2 longA (by decide)⟩

/-- C4: the `items` payload of `sample_item` carries every returned item
with each field passed through `truncateLongValues` independently, and
`truncateLongValues` rewrites exactly the string values longer than 100
characters — to their first 10 space-separated segments rejoined plus
"..." — while shorter strings and non-string values pass unchanged. -/
theorem sampleItem_truncation (c : String) (resources : List Item) :
    (sampleItem c (Except.ok resources)).items =
      some (resources.map (fun it =>
        it.map (fun kv => (kv.1, truncateLongValues kv.2)))) ∧
    (∀ t : String, 100 < t.length →
      truncateLongValues (Value.vStr t) =
        Value.vStr (String.mk (joinSpaces ((splitSpaces t.data).take 10)) ++ "...")) ∧
    (∀ t : String, t.length ≤ 100 →
      truncateLongValues (Value.vStr t) = Value.vStr t) ∧
    (∀ v : Value, (∀ t, v ≠ Value.vStr t) → truncateLongValues v = v) := by
  refine ⟨rfl, ?_, ?_, ?_⟩
  · intro t ht
    simp only [truncateLongValues]
    rw [if_pos ht]
  · intro t ht
    simp only [truncateLongValues]
    rw [if_neg (not_lt.mpr ht)]
  · intro v hv
    cases v with
    | vStr t => exact absurd rfl (hv t)
    | vNum n => rfl
    | vBool b => rfl
    | vNull => rfl
    | vUndefined => rfl
    | vObj fields => rfl
    | vArr vs => rfl

/-- A small sample resource list for witnesses. -/
def exSampleHead : Item := [("t", Value.vStr "hello"), ("n", Value.vNum 5)]

/-- C4, witness: a concrete resource list, a long string, a short string
and a number. -/
theorem sampleItem_truncation_witness :
    (sampleItem "c" (Except.ok [exSampleHead])).items =
      some ([exSampleHead].map (fun it =>
        it.map (fun kv => (kv.1, truncateLongValues kv.2)))) ∧
    truncateLongValues (Value.vStr longA) =
      Value.vStr (String.mk (joinSpaces ((splitSpaces longA.data).take 10)) ++ "...") ∧
    truncateLongValues (Value.vStr "hello") = Value.vStr "hello" ∧
    truncateLongValues (Value.vNum 5) = Value.vNum 5 :=
  ⟨(sampleItem_truncation "c" [exSampleHead]).1,
   (sampleItem_truncation "c" [exSampleHead]).2.1 longA (by decide),
   (sampleItem_truncation "c" [exSampleHead]).2.2.1 "hello" (by decide),
   (sampleItem_truncation "c" [exSampleHead]).2.2.2 (Value.vNum 5)
     (fun t h => Value.noConfusion h)⟩

/-- C5: the `schema` payload of `sample_item` is one
`\x7bfield, type, sample\x7d` entry per field of the first returned item —
`type` the runtime type tag of the raw value, `sample` the truncated value
— it is the empty array when zero items return, and it does not depend on
any item past the first. -/
theorem sampleItem_schema_first_only (c : String) (resources : List Item) :
    (sampleItem c (Except.ok resources)).schema =
      some (match resources with
        | [] => []
        | first :: _ => first.map (fun kv =>
            { field := kv.1, type := jsTypeof kv.2,
              sample := truncateLongValues kv.2 })) ∧
    (resources = [] → (sampleItem c (Except.ok resources)).schema = some []) ∧
    (∀ first rest rest',
      (sampleItem c (Except.ok (first :: rest))).schema =
        (sampleItem c (Except.ok (first :: rest'))).schema) := by
  refine ⟨rfl, ?_, ?_⟩
  · intro h
    subst h
    rfl
  · intro first rest rest'
    rfl

/-- C5, witness: the empty resource list, and two lists sharing a first
item. -/
theorem sampleItem_schema_first_only_witness :
    (sampleItem "c" (Except.ok ([] : List Item))).schema = some [] ∧
    (sampleItem "c" (Except.ok [exSampleHead, exSampleHead])).schema =
      (sampleItem "c" (Except.ok [exSampleHead])).schema :=
  ⟨(sampleItem_schema_first_only "c" []).2.1 rfl,
   (sampleItem_schema_first_only "c" []).2.2 exSampleHead [exSampleHead] []⟩

/-- C10: the truncated items `sample_item` returns have exactly the field
names of the raw fetched items — per-field truncation rewrites only
values, never adding, removing or renaming fields. -/
theorem sampleItem_preserves_field_names (c : String) (resources : List Item) :
    (sampleItem c (Except.ok resources)).items =
      some (resources.map truncateItem) ∧
    (∀ it : Item, (truncateItem it).map Prod.fst = it.map Prod.fst) := by
  refine ⟨rfl, ?_⟩
  intro it
  simp [truncateItem]

/-- A query oracle that returns no resources, for witnesses. -/
def trivialOracle : QueryOracle := ⟨fun _ _ _ => Except.ok []⟩

/-- The switch produces no result exactly for unregistered tool names. -/
theorem handlerOutcome_eq_none_iff (oracle : QueryOracle) (s : Store)
    (name : String) (args : Args) :
    handlerOutcome oracle s name args = none ↔ name ∉ toolNames := by
  unfold handlerOutcome toolNames
  split_ifs with h1 h2 h3 h4 h5 h6 <;> simp_all

/-- C6: a call-tool request whose name is none of the six registered tool
names returns (rather than throws) a response flagged `isError:true` whose
text is exactly `"Unknown tool: "` followed by the requested name, leaving
the store untouched. -/
theorem dispatch_unknown_tool (oracle : QueryOracle) (s : Store)
    (name : String) (args : Args) (h : name ∉ toolNames) :
    dispatch oracle s name args =
      ({ text := "Unknown tool: " ++ name, isError := true }, s) := by
  have hn := (handlerOutcome_eq_none_iff oracle s name args).mpr h
  unfold dispatch
  rw [hn]

/-- C6, witness: the unregistered name "drop_table". -/
theorem dispatch_unknown_tool_witness :
    dispatch trivialOracle exStore "drop_table" {} =
      ({ text := "Unknown tool: " ++ "drop_table", isError := true }, exStore) :=
  dispatch_unknown_tool trivialOracle exStore "drop_table" {} (by decide)

/-- C7: the protocol-level `isError` flag is true exactly when the tool
name is unregistered (the dispatcher-level catch being unreachable — every
handler catches its own failures and returns a result); every
handler-produced `OperationResult`, `success:false` ones included, is
returned as non-error content, so `isError` and the payload's `success`
are independent signals. -/
theorem dispatch_error_flag (oracle : QueryOracle) (s : Store) (name : String)
    (args : Args) :
    ((dispatch oracle s name args).1.isError = true ↔ name ∉ toolNames) ∧
    (∀ r s2, handlerOutcome oracle s name args = some (r, s2) →
      (dispatch oracle s name args).1 =
        { text := stringifyResult r, isError := false } ∧
      (dispatch oracle s name args).2 = s2) ∧
    (name ∈ toolNames →
      ∃ r s2, handlerOutcome oracle s name args = some (r, s2)) := by
  have hiff := handlerOutcome_eq_none_iff oracle s name args
  refine ⟨?_, ?_, ?_⟩
  · cases ho : handlerOutcome oracle s name args with
    | none =>
        have hm := hiff.mp ho
        unfold dispatch
        rw [ho]
        simp [hm]
    | some p =>
        have hm : name ∈ toolNames := by
          by_contra hmm
          rw [hiff.mpr hmm] at ho
          cases ho
        unfold dispatch
        rw [ho]
        simp [hm]
  · intro r s2 hr
    unfold dispatch
    rw [hr]
    exact ⟨rfl, rfl⟩
  · intro hm
    cases ho : handlerOutcome oracle s name args with
    | none => exact absurd (hiff.mp ho) (not_not_intro hm)
    | some p =>
        obtain ⟨r, s2⟩ := p
        exact ⟨r, s2, rfl⟩

/-- The arguments of the C7 witness call: `update_item` on a missing id,
so the handler itself reports `success:false`. -/
def exArgsUpd : Args := { containerName := "c", id := "zz" }

/-- C7, witness: `update_item` on a missing id returns a `success:false`
result, and the dispatcher still responds with `isError` unset. -/
theorem dispatch_error_flag_witness :
    ((dispatch trivialOracle exStore "update_item" exArgsUpd).1.isError = true ↔
      "update_item" ∉ toolNames) ∧
    ((dispatch trivialOracle exStore "update_item" exArgsUpd).1 =
       { text := stringifyResult
           { success := false,
             message := "Failed to update item: Error: Item not found" },
         isError := false } ∧
     (dispatch trivialOracle exStore "update_item" exArgsUpd).2 = exStore) ∧
    (∃ r s2, handlerOutcome trivialOracle exStore "update_item" exArgsUpd =
      some (r, s2)) :=
  ⟨(dispatch_error_flag trivialOracle exStore "update_item" exArgsUpd).1,
   (dispatch_error_flag trivialOracle exStore "update_item" exArgsUpd).2.1
     { success := false,
       message := "Failed to update item: Error: Item not found" }
     exStore rfl,
   (dispatch_error_flag trivialOracle exStore "update_item" exArgsUpd).2.2
     (by decide)⟩

/-- C8: `get_item` mutates nothing, and dispatching the same `get_item`
request twice against the resulting (unchanged) store produces
byte-identical serialized OperationResult JSON. -/
theorem getItem_idempotent (oracle : QueryOracle) (s : Store) (args : Args) :
    (dispatch oracle s "get_item" args).2 = s ∧
    (dispatch oracle ((dispatch oracle s "get_item" args).2) "get_item" args).1.text =
      (dispatch oracle s "get_item" args).1.text :=
  ⟨rfl, rfl⟩
